import Mathlib

/-!
Shallow embedding of the buluttan weather-ETL pipeline core
(src/data_transformation.py, src/dags/weather_utils.py, src/data_analysis.py,
src/data_extraction.py), together with theorems settling the specification
claims about it.

Conventions of the embedding:
* tabular numeric cells are rationals (exact arithmetic stands in for float);
  a nullable cell is an Option;
* a pandas DataFrame is a list of typed rows, plus, where the claim is about
  column-level effects, an explicit list of column names;
* an observation date is an integer day number (consecutive integers are
  consecutive calendar days), which is all the missing-date logic uses;
* fallible code returns Except with an error type mirroring the exceptions
  the Python code raises.
-/

namespace Buluttan

/-! ## Ingestion normalizer: column-name-variant resolution
    (transform_weather_data, weather_utils.py lines 294-326,
    data_transformation.py lines 164-196). -/

/-- The ordered candidate chain for the timestamp column, embedded from the
if / elif chain of transform_weather_data: Date/Time (LST) is tried first,
then Date/Time; None when neither is present. -/
def resolveDatetimeColumn (cols : List String) : Option String :=
  if ("Date/Time (LST)") ∈ cols then some ("Date/Time (LST)")
  else if ("Date/Time") ∈ cols then some ("Date/Time")
  else none

/-- The ordered candidate chain for the temperature column, embedded from the
if / elif chain of transform_weather_data: Temp (°C) first, then
Mean Temp (°C); None when neither is present. -/
def resolveTempColumn (cols : List String) : Option String :=
  if ("Temp (°C)") ∈ cols then some ("Temp (°C)")
  else if ("Mean Temp (°C)") ∈ cols then some ("Mean Temp (°C)")
  else none

/-- Errors of the transformation stage: the two ValueError raises of
transform_weather_data, which the spec taxonomy calls SchemaError. -/
inductive SchemaError where
  | datetimeColumnNotFound
  | temperatureColumnNotFound
deriving DecidableEq, Repr

/-- Column resolution prefix of transform_weather_data: resolve the datetime
column, raising on failure, then the temperature column, raising on failure
(the datetime check is executed first in the source). -/
def resolveSchema (cols : List String) : Except SchemaError (String × String) :=
  match resolveDatetimeColumn cols with
  | none => .error .datetimeColumnNotFound
  | some dt =>
    match resolveTempColumn cols with
    | none => .error .temperatureColumnNotFound
    | some tc => .ok (dt, tc)

/-! ## Quality auditor (check_data_quality, weather_utils.py lines 104-159). -/

/-- Null count of one column, as contributed to the null_counts entry of the
quality report by df.isnull().sum() restricted to that column. -/
def nullCount (cells : List (Option ℚ)) : Nat :=
  (cells.filter (fun c => c.isNone)).length

/-- The non-null values of a column, as produced by dropna on it. -/
def dropna (cells : List (Option ℚ)) : List ℚ :=
  cells.filterMap id

/-- Mean of a column, as pandas Series.mean over the non-null values. -/
def seriesMean (l : List ℚ) : ℚ :=
  l.sum / (l.length : ℚ)

/-- Sample variance of a column (pandas Series.std squared, ddof = 1):
sum of squared deviations from the mean divided by n - 1. -/
def sampleVariance (l : List ℚ) : ℚ :=
  (l.map (fun x => (x - seriesMean l) ^ 2)).sum / ((l.length : ℚ) - 1)

/-- The outlier test of check_data_quality on one reading x:
x < mean - 3 * std or x > mean + 3 * std. Since std = sqrt variance is
irrational in general, the embedding uses the equivalent exact-rational form
abs (x - mean) > 3 * std iff (x - mean) ^ 2 > 9 * variance (both sides of the
original comparison are obtained from nonnegative quantities by sqrt, a
strictly monotone map on nonnegatives). -/
def isTempOutlier (m v x : ℚ) : Bool :=
  decide ((x - m) ^ 2 > 9 * v)

/-- temperature_outliers field of the quality report: when the resolved
temperature column is not entirely null, count the readings strictly outside
mean ± 3 standard deviations (null readings never satisfy either strict
comparison in pandas, so only non-null readings are counted); otherwise 0. -/
def temperatureOutliers (cells : List (Option ℚ)) : Nat :=
  let temps := dropna cells
  if temps.length = 0 then 0
  else
    let m := seriesMean temps
    let v := sampleVariance temps
    (temps.filter (fun x => isTempOutlier m v x)).length

/-! ## Monthly aggregator (transform_weather_data, weather_utils.py
    lines 281-355, data_transformation.py lines 151-225). -/

/-- One normalized observation row after the datetime/temperature columns have
been resolved and year, month, date_month derived: station_id and data year
come from the filename tagging of load_weather_data, year / month /
date_month from the parsed datetime, temp from the resolved temperature
column (None when the cell is null). -/
structure ObsRow where
  station_id : String
  year : ℤ
  month : ℕ
  date_month : String
  temp : Option ℚ
deriving DecidableEq, Repr

/-- One row of the monthly aggregation result of transform_weather_data. -/
structure MonthlyAgg where
  station_id : String
  year : ℤ
  month : ℕ
  date_month : String
  temperature_celsius_avg : ℚ
  temperature_celsius_min : ℚ
  temperature_celsius_max : ℚ
deriving DecidableEq, Repr

/-- The groupby key of transform_weather_data: (station_id, year, month). -/
def aggKey (r : ObsRow) : String × ℤ × ℕ :=
  (r.station_id, r.year, r.month)

/-- Lexicographic comparison of groupby keys, the order pandas groupby
(sort=True, the default) lists the groups in. The station string is compared
through its character list, which is exactly the standard string order. -/
def aggKeyLE (a b : String × ℤ × ℕ) : Prop :=
  toLex (a.1.data, toLex (a.2.1, a.2.2)) ≤ toLex (b.1.data, toLex (b.2.1, b.2.2))

instance : DecidableRel aggKeyLE :=
  fun _ _ => inferInstanceAs (Decidable (_ ≤ _))

instance : IsTotal (String × ℤ × ℕ) aggKeyLE :=
  ⟨fun _ _ => le_total _ _⟩

instance : IsTrans (String × ℤ × ℕ) aggKeyLE :=
  ⟨fun _ _ _ => le_trans⟩

/-- The rows surviving dropna(subset=[temp_column]), paired with their
(non-null) temperature value. -/
def validRows (rows : List ObsRow) : List (ObsRow × ℚ) :=
  rows.filterMap (fun r => r.temp.map (fun t => (r, t)))

/-- The distinct groupby keys of the non-null-temperature rows, listed in the
sorted order pandas groupby produces them in. -/
def groupKeys (rows : List ObsRow) : List (String × ℤ × ℕ) :=
  (((validRows rows).map (fun p => aggKey p.1)).dedup).insertionSort aggKeyLE

/-- The members of one (station_id, year, month) group, in frame order. -/
def groupOf (rows : List ObsRow) (k : String × ℤ × ℕ) : List (ObsRow × ℚ) :=
  (validRows rows).filter (fun p => aggKey p.1 = k)

/-- The agg step on one group: mean / min / max of the temperature values,
date_month by first. The empty case never arises (every emitted key has at
least one member); it returns a zero-filled placeholder. -/
def aggOfGroup (k : String × ℤ × ℕ) : List (ObsRow × ℚ) → MonthlyAgg
  | [] =>
    { station_id := k.1, year := k.2.1, month := k.2.2, date_month := "",
      temperature_celsius_avg := 0, temperature_celsius_min := 0,
      temperature_celsius_max := 0 }
  | p :: ps =>
    { station_id := k.1, year := k.2.1, month := k.2.2,
      date_month := p.1.date_month,
      temperature_celsius_avg := seriesMean ((p :: ps).map (fun q => q.2)),
      temperature_celsius_min := (ps.map (fun q => q.2)).foldl min p.2,
      temperature_celsius_max := (ps.map (fun q => q.2)).foldl max p.2 }

/-- transform_weather_data, aggregation part: drop rows with a null
temperature, group the remainder by (station_id, year, month), and aggregate
each group with mean / min / max / first. -/
def transform_weather_data (rows : List ObsRow) : List MonthlyAgg :=
  (groupKeys rows).map (fun k => aggOfGroup k (groupOf rows k))

/-! ### Order facts about fold-based min / max and the mean. -/

lemma foldl_min_le_init {α : Type} [LinearOrder α] :
    ∀ (l : List α) (x : α), l.foldl min x ≤ x := by
  intro l
  induction l with
  | nil => intro x; exact le_refl x
  | cons a l ih =>
    intro x
    calc (a :: l).foldl min x = l.foldl min (min x a) := rfl
    _ ≤ min x a := ih (min x a)
    _ ≤ x := min_le_left _ _

lemma foldl_min_le_mem {α : Type} [LinearOrder α] :
    ∀ (l : List α) (x y : α), y ∈ l → l.foldl min x ≤ y := by
  intro l
  induction l with
  | nil => intro x y hy; cases hy
  | cons a l ih =>
    intro x y hy
    rcases List.mem_cons.mp hy with h | h
    · subst h
      calc (y :: l).foldl min x = l.foldl min (min x y) := rfl
      _ ≤ min x y := foldl_min_le_init l (min x y)
      _ ≤ y := min_le_right _ _
    · exact ih (min x a) y h

lemma init_le_foldl_max {α : Type} [LinearOrder α] :
    ∀ (l : List α) (x : α), x ≤ l.foldl max x := by
  intro l
  induction l with
  | nil => intro x; exact le_refl x
  | cons a l ih =>
    intro x
    calc x ≤ max x a := le_max_left _ _
    _ ≤ l.foldl max (max x a) := ih (max x a)
    _ = (a :: l).foldl max x := rfl

lemma mem_le_foldl_max {α : Type} [LinearOrder α] :
    ∀ (l : List α) (x y : α), y ∈ l → y ≤ l.foldl max x := by
  intro l
  induction l with
  | nil => intro x y hy; cases hy
  | cons a l ih =>
    intro x y hy
    rcases List.mem_cons.mp hy with h | h
    · subst h
      calc y ≤ max x y := le_max_right _ _
      _ ≤ l.foldl max (max x y) := init_le_foldl_max l (max x y)
      _ = (y :: l).foldl max x := rfl
    · exact ih (max x a) y h

lemma length_mul_le_sum {l : List ℚ} {m : ℚ} (h : ∀ y ∈ l, m ≤ y) :
    (l.length : ℚ) * m ≤ l.sum := by
  induction l with
  | nil => simp
  | cons a l ih =>
    have ha : m ≤ a := h a (List.mem_cons_self a l)
    have hl : (l.length : ℚ) * m ≤ l.sum :=
      ih (fun y hy => h y (List.mem_cons_of_mem a hy))
    simp only [List.length_cons, List.sum_cons]
    push_cast
    linarith

lemma sum_le_length_mul {l : List ℚ} {m : ℚ} (h : ∀ y ∈ l, y ≤ m) :
    l.sum ≤ (l.length : ℚ) * m := by
  induction l with
  | nil => simp
  | cons a l ih =>
    have ha : a ≤ m := h a (List.mem_cons_self a l)
    have hl : l.sum ≤ (l.length : ℚ) * m :=
      ih (fun y hy => h y (List.mem_cons_of_mem a hy))
    simp only [List.length_cons, List.sum_cons]
    push_cast
    linarith

lemma foldl_min_le_seriesMean (t : ℚ) (ts : List ℚ) :
    ts.foldl min t ≤ seriesMean (t :: ts) := by
  have hall : ∀ y ∈ t :: ts, ts.foldl min t ≤ y := by
    intro y hy
    rcases List.mem_cons.mp hy with h | h
    · subst h; exact foldl_min_le_init ts y
    · exact foldl_min_le_mem ts t y h
  have hlen : (0 : ℚ) < ((t :: ts).length : ℚ) := by
    simp only [List.length_cons]
    push_cast
    positivity
  rw [seriesMean, le_div_iff₀ hlen]
  calc ts.foldl min t * ((t :: ts).length : ℚ)
      = ((t :: ts).length : ℚ) * (ts.foldl min t) := by ring
  _ ≤ (t :: ts).sum := length_mul_le_sum hall

lemma seriesMean_le_foldl_max (t : ℚ) (ts : List ℚ) :
    seriesMean (t :: ts) ≤ ts.foldl max t := by
  have hall : ∀ y ∈ t :: ts, y ≤ ts.foldl max t := by
    intro y hy
    rcases List.mem_cons.mp hy with h | h
    · subst h; exact init_le_foldl_max ts y
    · exact mem_le_foldl_max ts t y h
  have hlen : (0 : ℚ) < ((t :: ts).length : ℚ) := by
    simp only [List.length_cons]
    push_cast
    positivity
  rw [seriesMean, div_le_iff₀ hlen]
  calc (t :: ts).sum ≤ ((t :: ts).length : ℚ) * (ts.foldl max t) :=
        sum_le_length_mul hall
  _ = ts.foldl max t * ((t :: ts).length : ℚ) := by ring

/-! ## Year-over-year calculator (calculate_yoy_delta, weather_utils.py
    lines 357-378, data_transformation.py lines 227-248). -/

/-- A monthly aggregate augmented with the temperature_celsius_yoy_avg column
added by calculate_yoy_delta (None where pandas diff leaves NaN). -/
structure YoyRow where
  agg : MonthlyAgg
  temperature_celsius_yoy_avg : Option ℚ
deriving DecidableEq, Repr

/-- The sort key of calculate_yoy_delta: (station_id, month, year),
lexicographic, the key list of sort_values. The station string is compared
through its character list, which is the standard string order. -/
def yoyKey (a : MonthlyAgg) : Lex (List Char × Lex (ℕ × ℤ)) :=
  toLex (a.station_id.data, toLex (a.month, a.year))

/-- Row comparison used by the sort step of calculate_yoy_delta. -/
def yoyLE (a b : MonthlyAgg) : Prop :=
  yoyKey a ≤ yoyKey b

instance : DecidableRel yoyLE :=
  fun _ _ => inferInstanceAs (Decidable (_ ≤ _))

instance : IsTotal MonthlyAgg yoyLE :=
  ⟨fun _ _ => le_total _ _⟩

instance : IsTrans MonthlyAgg yoyLE :=
  ⟨fun _ _ _ => le_trans⟩

/-- The diff step of calculate_yoy_delta on the sorted frame: walk the rows in
order; a row in the same (station_id, month) partition as its predecessor gets
current average minus predecessor average, the first row of each partition
gets NaN (None). After sorting by (station_id, month, year) the partitions
are contiguous, so groupby(...).diff reduces to this adjacent difference. -/
def addDeltas : Option MonthlyAgg → List MonthlyAgg → List YoyRow
  | _, [] => []
  | prev, r :: rs =>
    let d : Option ℚ :=
      match prev with
      | some p =>
        if p.station_id = r.station_id ∧ p.month = r.month
        then some (r.temperature_celsius_avg - p.temperature_celsius_avg)
        else none
      | none => none
    ⟨r, d⟩ :: addDeltas (some r) rs

/-- calculate_yoy_delta: sort a copy of the monthly frame by
(station_id, month, year) ascending, then add the groupby diff column. -/
def calculate_yoy_delta (l : List MonthlyAgg) : List YoyRow :=
  addDeltas none (l.insertionSort yoyLE)

/-- Two sorted lists of monthly aggregates that are permutations of each
other, with no repeated (station_id, month, year) key, are equal. -/
lemma sorted_perm_eq_of_nodup_keys :
    ∀ {l₁ l₂ : List MonthlyAgg}, List.Perm l₁ l₂ → l₁.Sorted yoyLE →
      l₂.Sorted yoyLE → (l₁.map yoyKey).Nodup → l₁ = l₂ := by
  intro l₁
  induction l₁ with
  | nil =>
    intro l₂ hp _ _ _
    exact hp.nil_eq
  | cons a t₁ ih =>
    intro l₂ hp hs₁ hs₂ hnd
    cases l₂ with
    | nil => exact absurd hp.symm.nil_eq (by simp)
    | cons b t₂ =>
      rw [List.map_cons] at hnd
      rcases List.nodup_cons.mp hnd with ⟨hka, hndt⟩
      by_cases hab : a = b
      · subst hab
        have ht : List.Perm t₁ t₂ := hp.cons_inv
        rw [ih ht hs₁.of_cons hs₂.of_cons hndt]
      · have ha2 : a ∈ t₂ := by
          rcases List.mem_cons.mp (hp.subset (List.mem_cons_self a t₁)) with h | h
          · exact absurd h hab
          · exact h
        have hb1 : b ∈ t₁ := by
          rcases List.mem_cons.mp (hp.symm.subset (List.mem_cons_self b t₂)) with h | h
          · exact absurd h.symm hab
          · exact h
        have h₁ : yoyLE a b := List.rel_of_sorted_cons hs₁ b hb1
        have h₂ : yoyLE b a := List.rel_of_sorted_cons hs₂ a ha2
        have hkey : yoyKey a = yoyKey b := le_antisymm h₁ h₂
        exact absurd (hkey ▸ List.mem_map_of_mem yoyKey hb1) hka

/-- Whenever the (station_id, month, year) keys are pairwise distinct, the
sort step of calculate_yoy_delta yields the same list from any input order. -/
lemma insertionSort_eq_of_perm {l₁ l₂ : List MonthlyAgg} (hp : List.Perm l₁ l₂)
    (hnd : (l₁.map yoyKey).Nodup) :
    l₁.insertionSort yoyLE = l₂.insertionSort yoyLE := by
  refine sorted_perm_eq_of_nodup_keys ?_ ?_ ?_ ?_
  · exact (List.perm_insertionSort yoyLE l₁).trans
      (hp.trans (List.perm_insertionSort yoyLE l₂).symm)
  · exact List.sorted_insertionSort yoyLE l₁
  · exact List.sorted_insertionSort yoyLE l₂
  · exact (((List.perm_insertionSort yoyLE l₁).map yoyKey).nodup_iff).mpr hnd

/-! ## Claim C3 and C4 theorems. -/

/-- C3: every monthly aggregate produced by transform_weather_data from a
group with at least one non-null temperature satisfies min ≤ mean ≤ max; the
statistics are computed from the non-null temperature observations only,
because validRows (the dropna step) removes null-temperature rows before
grouping, so every emitted aggregate comes from a nonempty group of non-null
readings. -/
theorem transform_min_le_avg_le_max (rows : List ObsRow) (a : MonthlyAgg)
    (ha : a ∈ transform_weather_data rows) :
    a.temperature_celsius_min ≤ a.temperature_celsius_avg ∧
      a.temperature_celsius_avg ≤ a.temperature_celsius_max := by
  rcases List.mem_map.mp ha with ⟨k, hk, rfl⟩
  have hne : groupOf rows k ≠ [] := by
    have hk1 : k ∈ ((validRows rows).map (fun p => aggKey p.1)).dedup := by
      simpa [groupKeys] using hk
    rcases List.mem_map.mp (List.mem_dedup.mp hk1) with ⟨p, hp, hpk⟩
    have hmem : p ∈ groupOf rows k := by
      simp [groupOf, List.mem_filter, hp, hpk]
    exact List.ne_nil_of_mem hmem
  cases hg : groupOf rows k with
  | nil => exact absurd hg hne
  | cons p ps =>
    constructor
    · simpa [aggOfGroup, List.map_cons] using
        foldl_min_le_seriesMean p.2 (ps.map (fun q => q.2))
    · simpa [aggOfGroup, List.map_cons] using
        seriesMean_le_foldl_max p.2 (ps.map (fun q => q.2))

/-- A concrete batch for instantiating the C3 theorem: two non-null readings
(4 and 6) and one null reading for one station-month. -/
def aggWitnessRows : List ObsRow :=
  [⟨"26953", 2023, 1, "2023-01", some 4⟩,
   ⟨"26953", 2023, 1, "2023-01", some 6⟩,
   ⟨"26953", 2023, 1, "2023-01", none⟩]

/-- The monthly aggregate the embedded aggregator produces on
aggWitnessRows: mean 5, min 4, max 6. -/
def aggWitnessRow : MonthlyAgg :=
  ⟨"26953", 2023, 1, "2023-01", 5, 4, 6⟩

/-- Witness for C3: the theorem instantiated on the concrete batch
aggWitnessRows, whose single aggregate row is aggWitnessRow. -/
theorem transform_min_le_avg_le_max_witness :
    aggWitnessRow.temperature_celsius_min ≤ aggWitnessRow.temperature_celsius_avg ∧
      aggWitnessRow.temperature_celsius_avg ≤ aggWitnessRow.temperature_celsius_max :=
  transform_min_le_avg_le_max aggWitnessRows aggWitnessRow (by
    have h1 : groupKeys aggWitnessRows = [("26953", 2023, 1)] := by decide
    have h2 : groupOf aggWitnessRows ("26953", 2023, 1) =
        [(⟨"26953", 2023, 1, "2023-01", some 4⟩, 4),
         (⟨"26953", 2023, 1, "2023-01", some 6⟩, 6)] := by decide
    simp [transform_weather_data, h1, h2, aggOfGroup, aggWitnessRow, seriesMean]
    norm_num)

/-- Monthly average 4.0 for 2022-01, as in the spec's YoY example. -/
def yoy2022 : MonthlyAgg := ⟨"26953", 2022, 1, "2022-01", 4, 4, 4⟩

/-- Monthly average 5.0 for 2023-01, as in the spec's YoY example. -/
def yoy2023 : MonthlyAgg := ⟨"26953", 2023, 1, "2023-01", 5, 5, 5⟩

/-- C4: calculate_yoy_delta partitions by (station, month), orders each
partition by year ascending and assigns adjacent differences with the first
year undefined (this is the definition of addDeltas applied to the sorted
frame); when the input rows have pairwise distinct (station, month, year)
keys the whole output is the same for every permutation of the input rows;
and on averages 4.0 (2022) / 5.0 (2023) for one station-month the deltas are
none for 2022 and 1.0 for 2023. -/
theorem yoy_delta_deterministic_and_example :
    (∀ (l₁ l₂ : List MonthlyAgg), List.Perm l₁ l₂ → (l₁.map yoyKey).Nodup →
        calculate_yoy_delta l₁ = calculate_yoy_delta l₂) ∧
      calculate_yoy_delta [yoy2022, yoy2023] =
        [⟨yoy2022, none⟩, ⟨yoy2023, some 1⟩] := by
  constructor
  · intro l₁ l₂ hp hnd
    rw [calculate_yoy_delta, calculate_yoy_delta, insertionSort_eq_of_perm hp hnd]
  · have hs : List.insertionSort yoyLE [yoy2022, yoy2023] = [yoy2022, yoy2023] := by
      decide
    rw [calculate_yoy_delta, hs]
    simp [addDeltas, yoy2022, yoy2023]
    norm_num

/-- Witness for C4: the permutation-invariance part applied to the concrete
two-row example and its transposition. -/
theorem yoy_delta_deterministic_witness :
    calculate_yoy_delta [yoy2022, yoy2023] = calculate_yoy_delta [yoy2023, yoy2022] :=
  yoy_delta_deterministic_and_example.1 [yoy2022, yoy2023] [yoy2023, yoy2022]
    (List.Perm.swap yoy2023 yoy2022 []) (by decide)

/-! ## Claim C2: the quality-audit example batch. -/

/-- C2 counterexample: on resolved temperatures [5.2, 4.8, null, 100.0] the
audit of check_data_quality does NOT report an outlier count of at least 1.
With sample statistics over the three non-null readings the mean is 110/3 and
the sample variance 676884/225, so the 3-standard-deviation band is roughly
36.67 ± 164.54 and 100.0 lies strictly inside it. -/
theorem quality_example_outlier_refuted :
    ¬ 1 ≤ temperatureOutliers [some 5.2, some 4.8, none, some 100.0] := by
  have h : temperatureOutliers [some 5.2, some 4.8, none, some 100.0] = 0 := by
    simp [temperatureOutliers, dropna, seriesMean, sampleVariance, isTempOutlier]
    norm_num
  omega

/-- C2 amended: on the batch [5.2, 4.8, null, 100.0] the audit reports a
temperature outlier count of exactly 0 (no reading is strictly outside
mean ± 3 sample standard deviations of the non-null readings) and a null
count of exactly 1 for the temperature field. -/
theorem quality_example_amended :
    temperatureOutliers [some 5.2, some 4.8, none, some 100.0] = 0 ∧
      nullCount [some 5.2, some 4.8, none, some 100.0] = 1 := by
  constructor
  · simp [temperatureOutliers, dropna, seriesMean, sampleVariance, isTempOutlier]
    norm_num
  · simp [nullCount]

/-! ## Claim C5: missing-date detection (check_data_quality,
    weather_utils.py lines 130-140). Observation dates are integer day
    numbers; pd.date_range(min, max) is the inclusive integer interval. -/

/-- Earliest observed date of a (nonempty) batch, df of Date min. -/
def minObserved (d : ℤ) (ds : List ℤ) : ℤ := ds.foldl min d

/-- Latest observed date of a (nonempty) batch, df of Date max. -/
def maxObserved (d : ℤ) (ds : List ℤ) : ℤ := ds.foldl max d

/-- missing_dates of check_data_quality: the full calendar range from the
earliest to the latest observed date, minus the set of dates present.
An empty batch has no datetime column values, so no range (empty result). -/
def missing_dates : List ℤ → Finset ℤ
  | [] => ∅
  | d :: ds => Finset.Icc (minObserved d ds) (maxObserved d ds) \ (d :: ds).toFinset

/-- C5: for every batch with at least one observed date, the missing-date set
is the inclusive calendar range minus the observed dates (definitionally) and
its size is the number of calendar days from min to max inclusive minus the
number of distinct observed dates; and the concrete batch {1, 2, 3, 5} yields
exactly the one missing date 4. -/
theorem missing_dates_card_and_example :
    (∀ (d : ℤ) (ds : List ℤ),
        (missing_dates (d :: ds)).card
          = (maxObserved d ds + 1 - minObserved d ds).toNat
              - (d :: ds).toFinset.card) ∧
      missing_dates [1, 2, 3, 5] = {4} := by
  constructor
  · intro d ds
    have hsub : (d :: ds).toFinset ⊆
        Finset.Icc (minObserved d ds) (maxObserved d ds) := by
      intro x hx
      rw [List.mem_toFinset] at hx
      rw [Finset.mem_Icc]
      rcases List.mem_cons.mp hx with h | h
      · subst h
        exact ⟨foldl_min_le_init ds x, init_le_foldl_max ds x⟩
      · exact ⟨foldl_min_le_mem ds d x h, mem_le_foldl_max ds d x h⟩
    rw [missing_dates, Finset.card_sdiff hsub, Int.card_Icc]
  · decide

/-! ## Batch loader (load_weather_data, weather_utils.py lines 229-279,
    data_transformation.py lines 99-149). The loader is modelled on the list
    of per-file parse outcomes: some batch for a file whose read and
    filename-tagging succeeded, none for a file whose processing raised and
    was logged and skipped. -/

/-- Errors of load_weather_data: the FileNotFoundError when the glob finds no
station files at all, and the ValueError (no valid data files were processed)
when every found file failed to parse; the spec taxonomy calls the latter
EmptyDatasetError. -/
inductive LoadError where
  | noRawDataFiles
  | noValidDataFiles
deriving DecidableEq, Repr

/-- load_weather_data on the parse outcomes of the discovered files: raise if
no file was discovered; otherwise keep the successfully parsed batches in
order, dropping the failed ones, and raise if none remain. -/
def load_weather_data {α : Type} (parses : List (Option α)) :
    Except LoadError (List α) :=
  if parses.isEmpty then .error .noRawDataFiles
  else
    let allData := parses.filterMap id
    if allData.isEmpty then .error .noValidDataFiles
    else .ok allData

/-- C6: with at least one discovered batch file, load_weather_data fails if
and only if every batch failed to parse, in which case the error is the
empty-dataset one; when at least one batch parsed, the failed batches are
skipped and the result is exactly the successful batches in order. -/
theorem load_skips_failures_escalates_when_all_fail {α : Type}
    (parses : List (Option α)) (h : parses ≠ []) :
    ((∃ e, load_weather_data parses = .error e) ↔ ∀ p ∈ parses, p = none) ∧
      ((∀ p ∈ parses, p = none) →
        load_weather_data parses = .error .noValidDataFiles) ∧
      ((∃ p ∈ parses, p ≠ none) →
        load_weather_data parses = .ok (parses.filterMap id)) := by
  have hne : parses.isEmpty = false := by
    cases parses with
    | nil => exact absurd rfl h
    | cons a l => rfl
  by_cases hall : ∀ p ∈ parses, p = none
  · have hnil : parses.filterMap id = [] := by
      rw [List.filterMap_eq_nil_iff]
      intro a ha
      simpa using hall a ha
    have hload : load_weather_data parses = .error .noValidDataFiles := by
      simp [load_weather_data, hne, hnil]
    refine ⟨⟨fun _ => hall, fun _ => ⟨.noValidDataFiles, hload⟩⟩, fun _ => hload, ?_⟩
    rintro ⟨p, hp, hpn⟩
    exact absurd (hall p hp) hpn
  · have hnnil : ¬ parses.filterMap id = [] := by
      intro hc
      apply hall
      intro p hp
      have := (List.filterMap_eq_nil_iff.mp hc) p hp
      simpa using this
    have hload : load_weather_data parses = .ok (parses.filterMap id) := by
      simp [load_weather_data, hne, List.isEmpty_iff, hnnil]
    refine ⟨⟨?_, fun hc => absurd hc hall⟩, fun hc => absurd hc hall, fun _ => hload⟩
    rintro ⟨e, he⟩
    rw [hload] at he
    exact absurd he (by simp)

/-- Witness for C6: three discovered files of which the middle one fails to
parse; the loader succeeds with the two parsed batches, in order. -/
theorem load_skips_failures_witness :
    load_weather_data [some 1, none, some 2] = .ok [1, 2] :=
  (load_skips_failures_escalates_when_all_fail [some (1 : ℕ), none, some 2]
      (by simp)).2.2 ⟨some 1, by simp, by simp⟩

/-! ## Dimension joiner (join_weather_and_geonames, weather_utils.py
    lines 380-431, data_transformation.py lines 250-311). The join is
    modelled with explicit column-name state on both input frames, because
    the source assigns a join_key column into both caller dataframes. -/

/-- One row of the processed geonames dimension table
(load_geonames_data output). -/
structure GeoRow where
  climate_id : String
  station_name : String
  feature_id : String
  latitude : ℚ
  longitude : ℚ
  map : String
deriving DecidableEq, Repr

/-- One row of the final joined dataset, in the fixed output column order of
join_weather_and_geonames. -/
structure FinalRow where
  station_name : String
  climate_id : String
  latitude : ℚ
  longitude : ℚ
  date_month : String
  feature_id : String
  map : String
  temperature_celsius_avg : ℚ
  temperature_celsius_min : ℚ
  temperature_celsius_max : ℚ
  temperature_celsius_yoy_avg : Option ℚ
deriving DecidableEq, Repr

/-- The monthly (YoY-augmented) dataframe as passed to the join: its rows and
its current column-name list. -/
structure WeatherFrame where
  rows : List YoyRow
  cols : List String
deriving DecidableEq, Repr

/-- The geonames dimension dataframe as passed to the join: its rows and its
current column-name list. -/
structure GeoFrame where
  rows : List GeoRow
  cols : List String
deriving DecidableEq, Repr

/-- Column assignment df[c] = 1: adds column c when absent (overwrites it
when present; at column-name level the list is then unchanged). -/
def addColumn (cols : List String) (c : String) : List String :=
  if c ∈ cols then cols else cols ++ [c]

/-- One combined row of the merge: dimension attributes from the geonames
row, measures and month label from the monthly row, projected to the fixed
final_columns order. -/
def mkFinalRow (w : YoyRow) (g : GeoRow) : FinalRow :=
  { station_name := g.station_name, climate_id := g.climate_id,
    latitude := g.latitude, longitude := g.longitude,
    date_month := w.agg.date_month, feature_id := g.feature_id, map := g.map,
    temperature_celsius_avg := w.agg.temperature_celsius_avg,
    temperature_celsius_min := w.agg.temperature_celsius_min,
    temperature_celsius_max := w.agg.temperature_celsius_max,
    temperature_celsius_yoy_avg := w.temperature_celsius_yoy_avg }

/-- join_weather_and_geonames: assign join_key = 1 into BOTH input frames,
merge on join_key (a Cartesian product, since every row carries the same
key), drop join_key from the merged frame only, and project to the fixed
column order. The returned triple is (weather frame after the call, geonames
frame after the call, final dataset); no error is ever raised for zero or
multiple dimension rows of a station, because no station key is compared. -/
def join_weather_and_geonames (w : WeatherFrame) (g : GeoFrame) :
    WeatherFrame × GeoFrame × List FinalRow :=
  let w1 : WeatherFrame := ⟨w.rows, addColumn w.cols ("join_key")⟩
  let g1 : GeoFrame := ⟨g.rows, addColumn g.cols ("join_key")⟩
  let combined := w1.rows.flatMap (fun wr => g1.rows.map (fun gr => mkFinalRow wr gr))
  (w1, g1, combined)

/-- The one monthly record of the C1 failing input: station 26953, 2023-01. -/
def joinBugWeather : WeatherFrame :=
  ⟨[⟨⟨"26953", 2023, 1, "2023-01", 5, 4, 6⟩, none⟩],
   ["station_id", "year", "month", "date_month", "temperature_celsius_avg",
    "temperature_celsius_min", "temperature_celsius_max",
    "temperature_celsius_yoy_avg"]⟩

/-- The dimension table of the C1 failing input: two stations, each with
exactly one dimension row. -/
def joinBugGeo : GeoFrame :=
  ⟨[⟨"ABCDE", "Station A", "FA1", 45, -75, "MapA"⟩,
    ⟨"FGHIJ", "Station B", "FB1", 46, -76, "MapB"⟩],
   ["climate_id", "station_name", "feature_id", "latitude", "longitude", "map"]⟩

/-- C1 (code bug evaluation): on one monthly record and a dimension table in
which every station appears exactly once, the join returns TWO final rows for
the single (station, month) - one per dimension row, a Cartesian product -
and raises nothing: the claimed exactly-one-row output and the
JoinIntegrityError path do not exist in the code (the spec flags this as a
known defect of the source). -/
theorem join_cross_product_code_bug :
    ((join_weather_and_geonames joinBugWeather joinBugGeo).2.2).map
        (fun r => (r.station_name, r.date_month))
      = [("Station A", "2023-01"), ("Station B", "2023-01")] := by
  decide

/-- C10: the join writes the join_key column into both of its argument
frames: after the call both the monthly frame and the dimension frame contain
a join_key column, and whenever an input lacked that column its column list
really changed (the caller's dimension table is not left unchanged). -/
theorem join_mutates_both_inputs (w : WeatherFrame) (g : GeoFrame) :
    (("join_key") ∈ (join_weather_and_geonames w g).1.cols ∧
      ("join_key") ∈ (join_weather_and_geonames w g).2.1.cols) ∧
      (("join_key") ∉ w.cols → (join_weather_and_geonames w g).1.cols ≠ w.cols) ∧
      (("join_key") ∉ g.cols → (join_weather_and_geonames w g).2.1.cols ≠ g.cols) := by
  refine ⟨⟨?_, ?_⟩, ?_, ?_⟩
  · by_cases hw : ("join_key") ∈ w.cols <;>
      simp [join_weather_and_geonames, addColumn, hw]
  · by_cases hg : ("join_key") ∈ g.cols <;>
      simp [join_weather_and_geonames, addColumn, hg]
  · intro hw
    simp only [join_weather_and_geonames, addColumn, if_neg hw]
    intro hc
    have := congrArg List.length hc
    simp at this
  · intro hg
    simp only [join_weather_and_geonames, addColumn, if_neg hg]
    intro hc
    have := congrArg List.length hc
    simp at this

/-- A weather frame without a join_key column, for the C10 witness. -/
def mutWitnessWeather : WeatherFrame := ⟨[], ["station_id", "date_month"]⟩

/-- A geonames frame without a join_key column, for the C10 witness. -/
def mutWitnessGeo : GeoFrame := ⟨[], ["climate_id", "station_name"]⟩

/-- Witness for C10: on concrete input frames lacking join_key, the call
leaves join_key present in both and changes both column lists. -/
theorem join_mutates_both_inputs_witness :
    (("join_key") ∈ (join_weather_and_geonames mutWitnessWeather mutWitnessGeo).1.cols ∧
      ("join_key") ∈ (join_weather_and_geonames mutWitnessWeather mutWitnessGeo).2.1.cols) ∧
      (join_weather_and_geonames mutWitnessWeather mutWitnessGeo).1.cols ≠ mutWitnessWeather.cols ∧
      (join_weather_and_geonames mutWitnessWeather mutWitnessGeo).2.1.cols ≠ mutWitnessGeo.cols :=
  ⟨(join_mutates_both_inputs mutWitnessWeather mutWitnessGeo).1,
    (join_mutates_both_inputs mutWitnessWeather mutWitnessGeo).2.1 (by decide),
    (join_mutates_both_inputs mutWitnessWeather mutWitnessGeo).2.2 (by decide)⟩

/-! ## Claim C7: first-present-candidate resolution and schema failure. -/

/-- C7: each logical field is resolved by its ordered candidate list with the
first present name winning - Date/Time (LST) before Date/Time, and
Temp (°C) before Mean Temp (°C) - and when none of a field's candidates is
present the transformation returns the corresponding SchemaError instead of
defaulting (datetime is checked first, matching the source order). -/
theorem schema_resolution_first_match_or_error (cols : List String) :
    (("Date/Time (LST)") ∈ cols →
        resolveDatetimeColumn cols = some ("Date/Time (LST)")) ∧
      (("Date/Time (LST)") ∉ cols → ("Date/Time") ∈ cols →
        resolveDatetimeColumn cols = some ("Date/Time")) ∧
      (("Temp (°C)") ∈ cols → resolveTempColumn cols = some ("Temp (°C)")) ∧
      (("Temp (°C)") ∉ cols → ("Mean Temp (°C)") ∈ cols →
        resolveTempColumn cols = some ("Mean Temp (°C)")) ∧
      (("Date/Time (LST)") ∉ cols → ("Date/Time") ∉ cols →
        resolveSchema cols = .error .datetimeColumnNotFound) ∧
      (resolveDatetimeColumn cols ≠ none → ("Temp (°C)") ∉ cols →
        ("Mean Temp (°C)") ∉ cols →
        resolveSchema cols = .error .temperatureColumnNotFound) := by
  refine ⟨?_, ?_, ?_, ?_, ?_, ?_⟩
  · intro h1
    simp [resolveDatetimeColumn, h1]
  · intro h1 h2
    simp [resolveDatetimeColumn, h1, h2]
  · intro h1
    simp [resolveTempColumn, h1]
  · intro h1 h2
    simp [resolveTempColumn, h1, h2]
  · intro h1 h2
    simp [resolveSchema, resolveDatetimeColumn, h1, h2]
  · intro h1 h2 h3
    have ht : resolveTempColumn cols = none := by
      simp [resolveTempColumn, h2, h3]
    cases hd : resolveDatetimeColumn cols with
    | none => exact absurd hd h1
    | some dt => simp [resolveSchema, hd, ht]

/-- Witness for C7: the theorem applied at concrete column lists - a batch
with the second-choice names resolves to Date/Time and Mean Temp (°C); a
batch with neither datetime candidate fails with the datetime SchemaError; a
batch with a datetime column but no temperature candidate fails with the
temperature SchemaError. -/
theorem schema_resolution_witness :
    resolveDatetimeColumn ["Date/Time", "Mean Temp (°C)"] = some ("Date/Time") ∧
      resolveTempColumn ["Date/Time", "Mean Temp (°C)"] = some ("Mean Temp (°C)") ∧
      resolveSchema ["Longitude"] = .error .datetimeColumnNotFound ∧
      resolveSchema ["Date/Time (LST)", "Longitude"] =
        .error .temperatureColumnNotFound :=
  ⟨(schema_resolution_first_match_or_error ["Date/Time", "Mean Temp (°C)"]).2.1
      (by decide) (by decide),
    (schema_resolution_first_match_or_error ["Date/Time", "Mean Temp (°C)"]).2.2.2.1
      (by decide) (by decide),
    (schema_resolution_first_match_or_error ["Longitude"]).2.2.2.2.1
      (by decide) (by decide),
    (schema_resolution_first_match_or_error ["Date/Time (LST)", "Longitude"]).2.2.2.2.2
      (by decide) (by decide) (by decide)⟩

/-! ## Analytical query engine, extreme-temperature queries
    (run_sql_queries queries 4 and 5, weather_utils.py lines 604-634,
    data_analysis.py lines 135-165). -/

/-- ORDER BY temperature_celsius_max DESC as a row comparison. -/
def highDescLE (a b : FinalRow) : Prop :=
  b.temperature_celsius_max ≤ a.temperature_celsius_max

instance : DecidableRel highDescLE :=
  fun _ _ => inferInstanceAs (Decidable (_ ≤ _))

instance : IsTotal FinalRow highDescLE :=
  ⟨fun _ _ => le_total _ _⟩

instance : IsTrans FinalRow highDescLE :=
  ⟨fun _ _ _ h1 h2 => le_trans h2 h1⟩

/-- ORDER BY temperature_celsius_min ASC as a row comparison. -/
def lowAscLE (a b : FinalRow) : Prop :=
  a.temperature_celsius_min ≤ b.temperature_celsius_min

instance : DecidableRel lowAscLE :=
  fun _ _ => inferInstanceAs (Decidable (_ ≤ _))

instance : IsTotal FinalRow lowAscLE :=
  ⟨fun _ _ => le_total _ _⟩

instance : IsTrans FinalRow lowAscLE :=
  ⟨fun _ _ _ => le_trans⟩

/-- Query 4, extreme_high_temps: station_name, date_month, max temperature,
ordered by max temperature descending, LIMIT 10. -/
def extreme_high_temps (rows : List FinalRow) : List (String × String × ℚ) :=
  ((rows.insertionSort highDescLE).map
    (fun r => (r.station_name, r.date_month, r.temperature_celsius_max))).take 10

/-- Query 5, extreme_low_temps: station_name, date_month, min temperature,
ordered by min temperature ascending, LIMIT 10. -/
def extreme_low_temps (rows : List FinalRow) : List (String × String × ℚ) :=
  ((rows.insertionSort lowAscLE).map
    (fun r => (r.station_name, r.date_month, r.temperature_celsius_min))).take 10

/-- C8: on every final dataset the extreme_high_temps and extreme_low_temps
results have at most 10 rows; extreme_high_temps is sorted by its max
temperature column descending and extreme_low_temps by its min temperature
column ascending. -/
theorem extreme_queries_limit_and_order (rows : List FinalRow) :
    (extreme_high_temps rows).length ≤ 10 ∧
      (extreme_low_temps rows).length ≤ 10 ∧
      (extreme_high_temps rows).Sorted (fun a b => b.2.2 ≤ a.2.2) ∧
      (extreme_low_temps rows).Sorted (fun a b => a.2.2 ≤ b.2.2) := by
  refine ⟨List.length_take_le _ _, List.length_take_le _ _, ?_, ?_⟩
  · refine List.Pairwise.sublist (List.take_sublist 10 _) ?_
    rw [List.pairwise_map]
    exact List.sorted_insertionSort highDescLE rows
  · refine List.Pairwise.sublist (List.take_sublist 10 _) ?_
    rw [List.pairwise_map]
    exact List.sorted_insertionSort lowAscLE rows

/-! ## Analysis-results save step (save_analysis_results, weather_utils.py
    lines 638-715). The duck-typed payload is modelled as a tagged variant;
    alpha abstracts the row-list value of one query; tryParse abstracts
    json.loads applied to a string payload. -/

/-- The shapes in which the upstream payload reaches save_analysis_results. -/
inductive AnalysisPayload (α : Type) where
  | mapping (m : List (String × α))
  | text (s : String)
  | absent
  | other (r : String)
deriving DecidableEq, Repr

/-- The JSON artifact save_analysis_results writes: a serialized query-name
mapping, or the raw payload under the raw_data sentinel key, or a message
under the error key. -/
inductive AnalysisArtifact (α : Type) where
  | results (m : List (String × α))
  | raw_data (s : String)
  | error_entry (msg : String)
deriving DecidableEq, Repr

/-- The type-probing dispatch in the body of save_analysis_results
(lines 667-699): dict payloads are serialized; str payloads are tried as
JSON (raw_data on parse failure); None becomes the error entry; any other
type is stringified under raw_data. -/
def processResults {α : Type} (tryParse : String → Option (List (String × α))) :
    AnalysisPayload α → AnalysisArtifact α
  | .mapping m => .results m
  | .text s =>
    match tryParse s with
    | some m => .results m
    | none => .raw_data s
  | .absent => .error_entry ("No results data available")
  | .other r => .raw_data r

/-- save_analysis_results: the FAILSAFE at function entry (line 651)
intercepts every string payload and writes it under raw_data immediately, so
the JSON-parse branch of the main dispatch is never reached; all other
payload shapes go through the main dispatch. The function is total: every
payload shape yields an artifact. -/
def save_analysis_results {α : Type}
    (tryParse : String → Option (List (String × α))) :
    AnalysisPayload α → AnalysisArtifact α
  | .text s => .raw_data s
  | .mapping m => processResults tryParse (.mapping m)
  | .absent => processResults tryParse .absent
  | .other r => processResults tryParse (.other r)

/-- C9: the save step produces an artifact for every payload shape without
raising - a string payload is wrapped under the raw_data sentinel key
whatever the JSON parser would say (the failsafe preempts the parse branch),
an absent payload goes under the error key, a well-formed mapping is
serialized as its content, and any other shape is stringified under the
sentinel key. -/
theorem save_analysis_results_shapes {α : Type}
    (tryParse : String → Option (List (String × α))) :
    (∀ s, save_analysis_results tryParse (.text s) = .raw_data s) ∧
      save_analysis_results tryParse .absent =
        .error_entry ("No results data available") ∧
      (∀ m, save_analysis_results tryParse (.mapping m) = .results m) ∧
      (∀ r, save_analysis_results tryParse (.other r) = .raw_data r) :=
  ⟨fun _ => rfl, rfl, fun _ => rfl, fun _ => rfl⟩

end Buluttan
